import Mathlib

/-!
Verification of the request/response translation layer of the
agentic-data-governance repository (directory adk-backend).

The Python handlers are shallowly embedded as pure Lean functions:
  - JSON values become the inductive type Json, with helpers mirroring the
    Python dict/list semantics the handlers rely on (truthiness, dict.get,
    the in operator, iteration, str()).
  - Exceptions become an explicit PyExc error type threaded through Except;
    the blanket except-Exception handlers of the sources are modelled by an
    explicit wrapping step.
  - Outbound HTTP traffic is modelled by a backend given as a function
    argument, and the calls a handler issues are collected in a trace list.
  - The clock and the uuid generator are abstracted as parameters; the
    sources call time.time, datetime.now and uuid.uuid4 at the marked spots.
-/

/-- A JSON value as produced by Python json decoding (dicts keep key order,
which List-of-pairs preserves). -/
inductive Json where
  | null
  | bool (b : Bool)
  | num (n : Int)
  | str (s : String)
  | arr (elems : List Json)
  | obj (members : List (String × Json))

/-- A single-quote character, used when rendering Python repr output. -/
def squote : String := String.singleton (Char.ofNat 39)

mutual
/-- Python repr of a decoded JSON value (dicts and strings print with single
quotes; we only need values whose strings contain no escapes). -/
def Json.pyRepr : Json → String
  | .null => "None"
  | .bool b => if b then "True" else "False"
  | .num n => toString n
  | .str s => squote ++ s ++ squote
  | .arr xs => "[" ++ String.intercalate ", " (Json.pyReprList xs) ++ "]"
  | .obj kvs => "\x7b" ++ String.intercalate ", " (Json.pyReprKVs kvs) ++ "\x7d"

def Json.pyReprList : List Json → List String
  | [] => []
  | j :: js => Json.pyRepr j :: Json.pyReprList js

def Json.pyReprKVs : List (String × Json) → List String
  | [] => []
  | (k, v) :: kvs => (squote ++ k ++ squote ++ ": " ++ Json.pyRepr v) :: Json.pyReprKVs kvs
end

/-- Python str() of a decoded JSON value: like repr, except a top-level
string prints without quotes. -/
def Json.pyStr : Json → String
  | .str s => s
  | j => j.pyRepr

/-- Python truthiness of a decoded JSON value. -/
def Json.truthy : Json → Bool
  | .null => false
  | .bool b => b
  | .num n => n != 0
  | .str s => !s.isEmpty
  | .arr xs => !xs.isEmpty
  | .obj kvs => !kvs.isEmpty

mutual
/-- Structural equality on JSON values (Python == on decoded values, for the
shapes compared by the handlers). -/
def Json.beq : Json → Json → Bool
  | .null, .null => true
  | .bool a, .bool b => a == b
  | .num a, .num b => a == b
  | .str a, .str b => a == b
  | .arr a, .arr b => Json.beqList a b
  | .obj a, .obj b => Json.beqKVs a b
  | _, _ => false

def Json.beqList : List Json → List Json → Bool
  | [], [] => true
  | a :: as_, b :: bs => Json.beq a b && Json.beqList as_ bs
  | _, _ => false

def Json.beqKVs : List (String × Json) → List (String × Json) → Bool
  | [], [] => true
  | (k, v) :: as_, (l, w) :: bs => k == l && Json.beq v w && Json.beqKVs as_ bs
  | _, _ => false
end

instance : BEq Json := ⟨Json.beq⟩

/-- Whether a decoded value is a Python dict. -/
def Json.isObj : Json → Bool
  | .obj _ => true
  | _ => false

/-- The Python exceptions the embedded handlers can raise. -/
inductive PyExc where
  | httpException (status : Nat) (detail : String)
  | attributeError (msg : String)
  | typeError (msg : String)
  | indexError (msg : String)
  | keyError (key : String)
deriving Repr, DecidableEq

/-- Python str() of an exception; starlette HTTPException renders as
"status: detail", the builtin exceptions render their message. -/
def PyExc.toStr : PyExc → String
  | .httpException s d => toString s ++ ": " ++ d
  | .attributeError m => m
  | .typeError m => m
  | .indexError m => m
  | .keyError k => squote ++ k ++ squote

/-- Message of the AttributeError raised when .get is called on a non-dict. -/
def noGetAttr (tyName : String) : String :=
  squote ++ tyName ++ squote ++ " object has no attribute " ++ squote ++ "get" ++ squote

/-- Python d.get(k, default): returns the stored value when the key is
present (first binding; Python dicts have unique keys), the default when it
is absent, and raises AttributeError when the receiver is not a dict. -/
def pyGet (j : Json) (k : String) (default : Json) : Except PyExc Json :=
  match j with
  | .obj kvs =>
    match kvs.lookup k with
    | some v => .ok v
    | none => .ok default
  | .arr _ => .error (.attributeError (noGetAttr "list"))
  | .str _ => .error (.attributeError (noGetAttr "str"))
  | .num _ => .error (.attributeError (noGetAttr "int"))
  | .bool _ => .error (.attributeError (noGetAttr "bool"))
  | .null => .error (.attributeError (noGetAttr "NoneType"))

/-- Python k in j for the shapes the handlers probe: key membership on a
dict; anything else is not reached on the paths we verify because .get has
already raised on a non-dict. -/
def pyContains (j : Json) (k : String) : Except PyExc Bool :=
  match j with
  | .obj kvs => .ok ((kvs.lookup k).isSome)
  | .str s => .ok (decide (k.length ≤ s.length) && (s.splitOn k).length > 1)
  | .arr xs => .ok (xs.any (fun x => Json.beq x (.str k)))
  | _ => .error (.typeError "argument of type is not iterable")

/-- Python iteration over a decoded value: lists yield elements, dicts yield
their keys, strings yield one-character strings; numbers and the rest raise
TypeError. -/
def pyIter : Json → Except PyExc (List Json)
  | .arr xs => .ok xs
  | .obj kvs => .ok (kvs.map (fun kv => .str kv.1))
  | .str s => .ok (s.toList.map (fun c => .str (String.singleton c)))
  | .num _ => .error (.typeError "int object is not iterable")
  | .bool _ => .error (.typeError "bool object is not iterable")
  | .null => .error (.typeError "NoneType object is not iterable")

/-- Substring test on character lists (Python in on strings). -/
def containsSub (hay pat : List Char) : Bool :=
  match hay with
  | [] => pat.isEmpty
  | c :: t => pat.isPrefixOf (c :: t) || containsSub t pat

/-- Python pat in s on strings. -/
def strContains (s pat : String) : Bool := containsSub s.toList pat.toList

/-- Python str.lower(), character by character (the provider and model
names compared are plain ASCII). -/
def pyLower (s : String) : String := String.mk (s.data.map Char.toLower)

/-! ## Shared request and response shapes (pydantic models of the handlers) -/

/-- ChatMessage of adk_openai_adapter.py lines 34 to 36 (identical in
adk_agent_api.py lines 35 to 37 and main.py lines 16 to 18). -/
structure ChatMessage where
  role : String
  content : String
deriving Repr, DecidableEq

/-- ChatCompletionRequest of adk_openai_adapter.py lines 38 to 43; the
temperature and max_tokens fields are accepted but never read by the
handlers, so they are carried opaquely. -/
structure ChatCompletionRequest where
  model : String
  messages : List ChatMessage
  stream : Bool := false
deriving Repr, DecidableEq

/-- One element of the choices list built at adk_openai_adapter.py
lines 176 to 183. -/
structure Choice where
  index : Nat
  message : ChatMessage
  finish_reason : String
deriving Repr, DecidableEq

/-- ChatCompletionResponse of adk_openai_adapter.py lines 45 to 51. -/
structure ChatCompletionResponse where
  id : String
  object : String := "chat.completion"
  created : Int
  model : String
  choices : List Choice
  usage : List (String × Int) := [("prompt_tokens", 0), ("completion_tokens", 0), ("total_tokens", 0)]
deriving Repr, DecidableEq

/-- An HTTP error surfaced to the caller (the status and detail of the
HTTPException that escapes the handler). -/
structure HTTPError where
  status : Nat
  detail : String
deriving Repr, DecidableEq

/-- The user-message selection of adk_openai_adapter.py lines 98 to 102 and
adk_agent_api.py lines 90 to 94: scan the messages in reverse and take the
content of the first role user match. -/
def lastUserMessage (messages : List ChatMessage) : Option String :=
  (messages.reverse.find? (fun m => m.role == "user")).map (fun m => m.content)

/-! ## adk_openai_adapter.py -/

/-- One outbound HTTP response from the ADK API server; json models
await resp.json() and text models await resp.text(). -/
structure BackendHttpResponse where
  status : Nat
  json : Json
  text : String

/-- The ADK API server as seen by the adapter: the session-create call at
lines 114 to 125 and the message send at lines 128 to 141. -/
structure AdkBackend where
  createSession : String → BackendHttpResponse
  sendMessage : String → String → BackendHttpResponse

/-- A backend call issued by the adapter, recorded in order. -/
inductive BackendCall where
  | createSession (sessionId : String)
  | sendMessage (sessionId : String) (content : String)
deriving Repr, DecidableEq

/-- The event scan of adk_openai_adapter.py lines 150 to 155: take the first
event whose type is agent_response or that has a content key, with truthy
content, and return str of that content; keep scanning otherwise. -/
def Adapter.findEventText : List Json → Except PyExc String
  | [] => .ok ""
  | event :: rest =>
    match pyGet event "type" .null with
    | .error e => .error e
    | .ok ty =>
      match (if Json.beq ty (.str "agent_response") then .ok true else pyContains event "content") with
      | .error e => .error e
      | .ok matched =>
        if matched then
          match pyGet event "content" (.str "") with
          | .error e => .error e
          | .ok content =>
            if content.truthy then .ok content.pyStr
            else Adapter.findEventText rest
        else Adapter.findEventText rest

/-- The response extraction of adk_openai_adapter.py lines 144 to 167:
events scan, then the state fallback, then the fixed placeholder. -/
def Adapter.extractResponseText (response_data : Json) : Except PyExc String :=
  match pyGet response_data "events" (.arr []) with
  | .error e => .error e
  | .ok events =>
    match (if events.truthy then
             match pyIter events with
             | .error e => .error e
             | .ok evs => Adapter.findEventText evs
           else .ok "" : Except PyExc String) with
    | .error e => .error e
    | .ok fromEvents =>
      match (if fromEvents == "" then
               match pyGet response_data "state" (.obj []) with
               | .error e => .error e
               | .ok state =>
                 match state with
                 | .obj kvs =>
                   match kvs.lookup "content" with
                   | some c => .ok c.pyStr
                   | none => .ok ""
                 | .str s => .ok s
                 | _ => .ok ""
             else .ok fromEvents : Except PyExc String) with
      | .error e => .error e
      | .ok withState =>
        .ok (if withState == "" then
          "I received your message but was unable to generate a response. Please try again."
        else withState)

/-- The body of the try block of adk_openai_adapter.py lines 91 to 186,
with the backend calls it issues recorded in the trace component.
sessionId is the synthesized openai_session id of line 110, uuidHex and
now are the uuid4 and time.time values drawn at lines 173 and 174. -/
def Adapter.tryBody (request : ChatCompletionRequest) (backend : AdkBackend)
    (sessionId uuidHex : String) (now : Int) :
    List BackendCall × Except PyExc ChatCompletionResponse :=
  if request.messages.isEmpty then
    ([], .error (.httpException 400 "No messages provided"))
  else
    match lastUserMessage request.messages with
    | none => ([], .error (.httpException 400 "No user message found"))
    | some user_message =>
      if user_message == "" then
        ([], .error (.httpException 400 "No user message found"))
      else
        let sresp := backend.createSession sessionId
        if sresp.status != 200 then
          ([.createSession sessionId], .error (.httpException 500 "Failed to create ADK session"))
        else
          match pyGet sresp.json "id" (.str sessionId) with
          | .error e => ([.createSession sessionId], .error e)
          | .ok idv =>
            let actual_session_id := idv.pyStr
            let mresp := backend.sendMessage actual_session_id user_message
            let trace := [BackendCall.createSession sessionId,
                          BackendCall.sendMessage actual_session_id user_message]
            if mresp.status != 200 then
              (trace, .error (.httpException 500 ("ADK API error: " ++ mresp.text)))
            else
              match Adapter.extractResponseText mresp.json with
              | .error e => (trace, .error e)
              | .ok response_text =>
                (trace, .ok { id := "chatcmpl-" ++ uuidHex, created := now,
                              model := request.model,
                              choices := [{ index := 0,
                                            message := { role := "assistant", content := response_text },
                                            finish_reason := "stop" }] })

/-- create_chat_completion of adk_openai_adapter.py lines 88 to 193: the try
body above, with every escaping exception re-wrapped by the blanket
except-Exception clause of lines 191 to 193 into a 500 response carrying
str of the exception. The aiohttp.ClientError clause of lines 188 to 190 is
unreachable here because the modelled backend is a total function. -/
def Adapter.create_chat_completion (request : ChatCompletionRequest) (backend : AdkBackend)
    (sessionId uuidHex : String) (now : Int) :
    List BackendCall × Except HTTPError ChatCompletionResponse :=
  let (trace, r) := Adapter.tryBody request backend sessionId uuidHex now
  (trace, match r with
    | .ok v => .ok v
    | .error e => .error { status := 500, detail := "Internal server error: " ++ e.toStr })

/-! ## adk_agent_api.py -/

/-- A part of an ADK event content; none models an absent or None text
attribute. -/
structure AdkPart where
  text : Option String
deriving Repr, DecidableEq

/-- The content of an ADK event. -/
structure AdkContent where
  parts : List AdkPart
deriving Repr, DecidableEq

/-- An event yielded by the ADK runner; none models an absent or falsy
content attribute. -/
structure AdkEvent where
  content : Option AdkContent
deriving Repr, DecidableEq

/-- The response extraction of adk_agent_api.py lines 132 to 144: look only
at the last event, join the texts of all its truthy parts, and fall back to
the fixed placeholder when that leaves the empty string. -/
def AgentApi.extractResponseText (events : List AdkEvent) : String :=
  let response_text :=
    match events.getLast? with
    | none => ""
    | some last_event =>
      match last_event.content with
      | none => ""
      | some content =>
        String.join ((content.parts.filter (fun p => p.text.getD "" != "")).map
          (fun p => p.text.getD ""))
  if response_text == "" then
    "I apologize, but I was unable to generate a response. Please try again."
  else response_text

/-- A call issued by the agent-api handler: the in-process session creation
of lines 100 to 103 and the runner invocation of lines 124 to 128, recorded
with the text of the new message it forwards. -/
inductive AgentCall where
  | createSession
  | run (newMessageText : String)
deriving Repr, DecidableEq

/-- The body of the try block of adk_agent_api.py lines 83 to 166; the
runner argument maps the forwarded message text to the event list the agent
produces. -/
def AgentApi.tryBody (request : ChatCompletionRequest) (runner : String → List AdkEvent)
    (uuidHex : String) (now : Int) :
    List AgentCall × Except PyExc ChatCompletionResponse :=
  if request.messages.isEmpty then
    ([], .error (.httpException 400 "No messages provided"))
  else
    match lastUserMessage request.messages with
    | none => ([], .error (.httpException 400 "No user message found"))
    | some user_message =>
      if user_message == "" then
        ([], .error (.httpException 400 "No user message found"))
      else
        let events := runner user_message
        let response_text := AgentApi.extractResponseText events
        ([AgentCall.createSession, AgentCall.run user_message],
         .ok { id := "chatcmpl-" ++ uuidHex, created := now, model := request.model,
               choices := [{ index := 0,
                             message := { role := "assistant", content := response_text },
                             finish_reason := "stop" }] })

/-- create_chat_completion of adk_agent_api.py lines 80 to 170, with the
blanket except-Exception clause of lines 168 to 170 wrapping every escaping
exception into a 500 response carrying str of the exception. -/
def AgentApi.create_chat_completion (request : ChatCompletionRequest)
    (runner : String → List AdkEvent) (uuidHex : String) (now : Int) :
    List AgentCall × Except HTTPError ChatCompletionResponse :=
  let (trace, r) := AgentApi.tryBody request runner uuidHex now
  (trace, match r with
    | .ok v => .ok v
    | .error e => .error { status := 500, detail := "Internal server error: " ++ e.toStr })

/-! ## main.py -/

/-- OpenAIRequest of main.py lines 20 to 23. -/
structure OpenAIRequest where
  model : String
  messages : List ChatMessage
  stream : Bool := false
deriving Repr, DecidableEq

/-- The final event consumed by main.py: is_final_response() at line 42 and
message.parts.text at line 43. -/
structure MainEvent where
  is_final_response : Bool
  message_parts_text : String
deriving Repr, DecidableEq

/-- The response payload assembled at main.py lines 46 to 66 (the envelope
fields the handler writes; id and created are the hard-coded dummies). -/
structure MainResponse where
  id : String
  created : Int
  model : String
  content : String
  finish_reason : String
deriving Repr, DecidableEq

/-- chat_completions of main.py lines 32 to 67. The handler has no
try-except, so the IndexError of messages[-1] on an empty list escapes to
the framework; run_sync models the synchronous agent runner of line 38 and
the trace component records the prompt it is handed. -/
def MainPy.chat_completions (request : OpenAIRequest)
    (run_sync : String → Option MainEvent) :
    List String × Except PyExc MainResponse :=
  match request.messages.getLast? with
  | none => ([], .error (.indexError "list index out of range"))
  | some lastMsg =>
    let user_prompt := lastMsg.content
    let final_event := run_sync user_prompt
    let response_text :=
      match final_event with
      | some ev => if ev.is_final_response then ev.message_parts_text else ""
      | none => ""
    ([user_prompt],
     .ok { id := "chatcmpl-123", created := 1677652288, model := request.model,
           content := response_text, finish_reason := "stop" })

/-! ## ollama_proxy.py -/

/-- MODEL_MAPPING of ollama_proxy.py lines 78 to 110. -/
def OllamaProxy.MODEL_MAPPING : List (String × String) := [
  ("gemini-2.0-flash", "gemini/gemini-2.0-flash"),
  ("gemini-2.0-flash-exp", "gemini/gemini-2.0-flash-exp"),
  ("gemini-1.5-flash", "gemini/gemini-1.5-flash"),
  ("gemini-1.5-flash-8b", "gemini/gemini-1.5-flash-8b"),
  ("gemini-1.5-pro", "gemini/gemini-1.5-pro"),
  ("gemini-pro", "gemini/gemini-pro"),
  ("gemini-pro-vision", "gemini/gemini-pro-vision"),
  ("gemini-2.0-flash-001", "vertex_ai/gemini-2.0-flash-001"),
  ("gemini-2.0-flash-vertex", "vertex_ai/gemini-2.0-flash-001"),
  ("gemini-1.5-flash-vertex", "vertex_ai/gemini-1.5-flash"),
  ("gemini-1.5-pro-vertex", "vertex_ai/gemini-1.5-pro"),
  ("gemini-pro-vertex", "vertex_ai/gemini-pro"),
  ("gpt-4o", "openai/gpt-4o"),
  ("gpt-4o-mini", "openai/gpt-4o-mini"),
  ("gpt-4-turbo", "openai/gpt-4-turbo"),
  ("gpt-4", "openai/gpt-4"),
  ("gpt-3.5-turbo", "openai/gpt-3.5-turbo"),
  ("o1", "openai/o1"),
  ("o1-mini", "openai/o1-mini"),
  ("claude-3-5-sonnet", "anthropic/claude-3-5-sonnet-20241022"),
  ("claude-3-5-haiku", "anthropic/claude-3-5-haiku-20241022"),
  ("claude-3-opus", "anthropic/claude-3-opus-20240229"),
  ("claude-3-sonnet", "anthropic/claude-3-sonnet-20240229"),
  ("claude-3-haiku", "anthropic/claude-3-haiku-20240307")]

/-- DEFAULT_MODELS of ollama_proxy.py lines 113 to 120. -/
def OllamaProxy.DEFAULT_MODELS : List (String × String) := [
  ("google_ai_studio", "gemini-2.0-flash"),
  ("gemini", "gemini-2.0-flash"),
  ("vertex_ai", "gemini-2.0-flash-001"),
  ("google_vertex_ai", "gemini-2.0-flash-001"),
  ("openai", "gpt-4o"),
  ("anthropic", "claude-3-5-sonnet")]

/-- get_default_model of ollama_proxy.py lines 122 to 124, with the module
global LITELLM_PROVIDER passed explicitly. -/
def OllamaProxy.get_default_model (LITELLM_PROVIDER : String) : String :=
  (OllamaProxy.DEFAULT_MODELS.lookup (pyLower LITELLM_PROVIDER)).getD "gemini-2.0-flash"

/-- map_model_name of ollama_proxy.py lines 126 to 156; the MODEL_MAPPING
square-bracket indexings at lines 152 and 156 raise KeyError when the key
is absent, which the embedding surfaces as an error value. -/
def OllamaProxy.map_model_name (LITELLM_PROVIDER : String) (ollama_model : String) :
    Except PyExc String :=
  match OllamaProxy.MODEL_MAPPING.lookup ollama_model with
  | some v => .ok v
  | none =>
    let provider := pyLower LITELLM_PROVIDER
    if provider == "google_ai_studio" || provider == "gemini" then
      .ok (if !(strContains ollama_model "gemini") then
             "gemini/" ++ OllamaProxy.get_default_model LITELLM_PROVIDER
           else "gemini/" ++ ollama_model)
    else if provider == "vertex_ai" || provider == "google_vertex_ai" then
      .ok (if !(strContains ollama_model "gemini") then
             "vertex_ai/" ++ OllamaProxy.get_default_model LITELLM_PROVIDER
           else if ollama_model == "gemini-2.0-flash-001" then
             "vertex_ai/gemini-2.0-flash-001"
           else "vertex_ai/" ++ ollama_model)
    else if provider == "openai" then
      .ok (if !(strContains (pyLower ollama_model) "gpt") && !(strContains (pyLower ollama_model) "o1") then
             "openai/" ++ OllamaProxy.get_default_model LITELLM_PROVIDER
           else "openai/" ++ ollama_model)
    else if provider == "anthropic" then
      if !(strContains (pyLower ollama_model) "claude") then
        match OllamaProxy.MODEL_MAPPING.lookup (OllamaProxy.get_default_model LITELLM_PROVIDER) with
        | some v => .ok ("anthropic/" ++ v)
        | none => .error (.keyError (OllamaProxy.get_default_model LITELLM_PROVIDER))
      else .ok ("anthropic/" ++ ollama_model)
    else
      match OllamaProxy.MODEL_MAPPING.lookup (OllamaProxy.get_default_model LITELLM_PROVIDER) with
      | some v => .ok v
      | none => .error (.keyError (OllamaProxy.get_default_model LITELLM_PROVIDER))

/-- ChatRequest of ollama_proxy.py lines 163 to 169 (the optional tuning
fields are forwarded opaquely and play no role in the verified claims). -/
structure ChatRequest where
  model : String
  messages : List ChatMessage
  stream : Bool := false
deriving Repr, DecidableEq

/-- The kwargs dict assembled for litellm.acompletion at ollama_proxy.py
lines 265 to 277. -/
structure LiteLLMArgs where
  model : String
  messages : List ChatMessage
  stream : Bool
deriving Repr, DecidableEq

/-- The message inside one choice of a litellm completion response. -/
structure LLMMessage where
  role : String
  content : String
deriving Repr, DecidableEq

/-- One choice of a litellm completion response. -/
structure LLMChoice where
  message : LLMMessage
deriving Repr, DecidableEq

/-- A non-streaming litellm completion response. -/
structure LLMResponse where
  choices : List LLMChoice
deriving Repr, DecidableEq

/-- The Ollama-shaped body built at ollama_proxy.py lines 288 to 296. -/
structure OllamaChatResponse where
  model : String
  created_at : String
  message : ChatMessage
  done : Bool
deriving Repr, DecidableEq

/-- Result of the /api/chat handler: a streaming response wrapping the
generator arguments, or the completed Ollama body. -/
inductive ChatHandlerResult where
  | streaming (kwargs : LiteLLMArgs)
  | completed (resp : OllamaChatResponse)
deriving Repr, DecidableEq

/-- chat_completion of ollama_proxy.py lines 255 to 302, non-streaming and
streaming dispatch included; acompletion models the awaited litellm call,
now the datetime.now().isoformat() string of line 290, and the blanket
except clause of lines 300 to 302 wraps escaping exceptions. -/
def OllamaProxy.chat_completion (LITELLM_PROVIDER : String) (request : ChatRequest)
    (acompletion : LiteLLMArgs → LLMResponse) (now : String) :
    Except HTTPError ChatHandlerResult :=
  let body : Except PyExc ChatHandlerResult :=
    match OllamaProxy.map_model_name LITELLM_PROVIDER request.model with
    | .error e => .error e
    | .ok litellm_model =>
      let kwargs : LiteLLMArgs :=
        { model := litellm_model, messages := request.messages, stream := request.stream }
      if request.stream then
        .ok (.streaming kwargs)
      else
        let response := acompletion kwargs
        match response.choices.head? with
        | none => .error (.indexError "list index out of range")
        | some c =>
          .ok (.completed { model := request.model, created_at := now,
                            message := { role := c.message.role, content := c.message.content },
                            done := true })
  match body with
  | .ok v => .ok v
  | .error e => .error { status := 500, detail := "Chat completion error: " ++ e.toStr }

/-- The delta of one streamed chunk choice; none models an absent or falsy
content attribute. -/
structure ChunkDelta where
  content : Option String
deriving Repr, DecidableEq

/-- One choice of a streamed chunk; none models a falsy delta. -/
structure ChunkChoice where
  delta : Option ChunkDelta
deriving Repr, DecidableEq

/-- One chunk of a litellm streaming response. -/
structure StreamChunk where
  choices : List ChunkChoice
deriving Repr, DecidableEq

/-- What the awaited litellm stream does: yield all chunks and complete, or
yield a prefix of chunks and then raise with a message (a raise before the
first chunk is err with the empty prefix). -/
inductive StreamResult where
  | ok (chunks : List StreamChunk)
  | err (consumed : List StreamChunk) (msg : String)
deriving Repr, DecidableEq

/-- One emitted streaming frame: the chat-shaped chunk of lines 313 to 321,
the generate-shaped chunk of lines 397 to 402, or the error chunk of
lines 338 to 341. -/
inductive Frame where
  | chat (model : String) (created_at : String) (message : ChatMessage) (done : Bool)
  | gen (model : String) (created_at : String) (response : String) (done : Bool)
  | err (error : String) (done : Bool)
deriving Repr, DecidableEq

/-- The done flag of a frame. -/
def Frame.isDone : Frame → Bool
  | .chat _ _ _ d => d
  | .gen _ _ _ d => d
  | .err _ d => d

/-- kwargs.get("model", "").split("/")[-1] at lines 314 and 398. -/
def modelShortName (m : String) : String := (m.splitOn "/").getLastD ""

/-- The frame (if any) emitted for one chunk by stream_chat_response,
lines 309 to 322: chunk.choices truthy, its first delta truthy, and a
truthy delta content. -/
def OllamaProxy.chatFrameOfChunk (kwargsModel now : String) (chunk : StreamChunk) :
    Option Frame :=
  match chunk.choices.head? with
  | none => none
  | some choice =>
    match choice.delta with
    | none => none
    | some delta =>
      match delta.content with
      | none => none
      | some c =>
        if c == "" then none
        else some (.chat (modelShortName kwargsModel) now
          { role := "assistant", content := c } false)

/-- stream_chat_response of ollama_proxy.py lines 304 to 342: the content
frames for the consumed chunks, then the final done frame on completion, or
the single error frame when the stream raises. The clock is abstracted as
the single parameter now (the source stamps each frame with datetime.now()
as it is emitted). -/
def OllamaProxy.stream_chat_response (kwargsModel now : String) :
    StreamResult → List Frame
  | .ok chunks =>
    chunks.filterMap (OllamaProxy.chatFrameOfChunk kwargsModel now) ++
      [.chat (modelShortName kwargsModel) now { role := "assistant", content := "" } true]
  | .err consumed msg =>
    consumed.filterMap (OllamaProxy.chatFrameOfChunk kwargsModel now) ++ [.err msg true]

/-- The frame (if any) emitted for one chunk by stream_generate_response,
lines 393 to 403. -/
def OllamaProxy.genFrameOfChunk (kwargsModel now : String) (chunk : StreamChunk) :
    Option Frame :=
  match chunk.choices.head? with
  | none => none
  | some choice =>
    match choice.delta with
    | none => none
    | some delta =>
      match delta.content with
      | none => none
      | some c =>
        if c == "" then none
        else some (.gen (modelShortName kwargsModel) now c false)

/-- stream_generate_response of ollama_proxy.py lines 388 to 420, with the
same structure as stream_chat_response but generate-shaped frames. -/
def OllamaProxy.stream_generate_response (kwargsModel now : String) :
    StreamResult → List Frame
  | .ok chunks =>
    chunks.filterMap (OllamaProxy.genFrameOfChunk kwargsModel now) ++
      [.gen (modelShortName kwargsModel) now "" true]
  | .err consumed msg =>
    consumed.filterMap (OllamaProxy.genFrameOfChunk kwargsModel now) ++ [.err msg true]

/-! ## Auxiliary definitions for the verified claims -/

/-- A backend whose calls all succeed with empty JSON bodies. -/
def okBackend : AdkBackend :=
  { createSession := fun _ => { status := 200, json := .obj [], text := "" },
    sendMessage := fun _ _ => { status := 200, json := .obj [], text := "" } }

/-- A backend whose session creation answers 409 conflict. -/
def backend409 : AdkBackend :=
  { createSession := fun _ => { status := 409, json := .obj [], text := "" },
    sendMessage := fun _ _ => { status := 200, json := .obj [], text := "" } }

/-- A backend whose session creation answers 200 with a reassigned id. -/
def backend200id : AdkBackend :=
  { createSession := fun _ => { status := 200, json := .obj [("id", .str "sid2")], text := "" },
    sendMessage := fun _ _ => { status := 200, json := .obj [], text := "" } }

/-- The well-formedness under which the adapter extraction cannot raise: a
dict response whose events value, when truthy, is a list of dicts. -/
def Adapter.eventsWellFormed : Json → Bool
  | .obj kvs =>
    match kvs.lookup "events" with
    | none => true
    | some v => !v.truthy || (match v with | .arr l => l.all Json.isObj | _ => false)
  | _ => false

/-- Whether an extraction result is a success carrying a non-empty string. -/
def okNonempty : Except PyExc String → Bool
  | .ok s => !(s == "")
  | .error _ => false

/-- The content of the single event in the spec scenario. -/
def scenarioContent : Json := .obj [("parts", .arr [.obj [("text", .str "4")]])]

/-- The spec scenario backend response: one event whose content has
parts[0].text equal to "4". -/
def scenarioResp : Json := .obj [("events", .arr [.obj [("content", scenarioContent)]])]

/-- Erase the synthesized id and timestamp of an adapter response. -/
def eraseVolatile (r : ChatCompletionResponse) : ChatCompletionResponse :=
  { r with id := "", created := 0 }

/-- Erase the synthesized timestamp of an ollama_proxy chat result. -/
def eraseCreatedAt : ChatHandlerResult → ChatHandlerResult
  | .streaming k => .streaming k
  | .completed r => .completed { r with created_at := "" }

deriving instance DecidableEq for Except

/-! ## Helper lemmas -/

/-- pyGet on a dict never raises: it returns the stored value or the
default. -/
theorem pyGet_obj (kvs : List (String × Json)) (k : String) (d : Json) :
    pyGet (.obj kvs) k d = .ok ((kvs.lookup k).getD d) := by
  cases h : kvs.lookup k <;> simp [pyGet, h]

/-- A lemma for C2: when no message has role user, the reverse scan finds
nothing. -/
theorem lastUserMessage_eq_none (messages : List ChatMessage)
    (h : messages.all (fun m => m.role != "user") = true) :
    lastUserMessage messages = none := by
  unfold lastUserMessage
  rw [List.find?_eq_none.mpr, Option.map_none']
  intro m hm
  have := (List.all_eq_true.mp h) m (List.mem_reverse.mp hm)
  simpa using this

/-- The event scan cannot raise on a list of dicts. -/
theorem findEventText_ok (l : List Json) (h : l.all Json.isObj = true) :
    ∃ s, Adapter.findEventText l = .ok s := by
  induction l with
  | nil => exact ⟨"", rfl⟩
  | cons ev rest ih =>
    rw [List.all_cons, Bool.and_eq_true] at h
    obtain ⟨h1, h2⟩ := h
    cases ev with
    | obj kvs =>
      obtain ⟨s, hs⟩ := ih h2
      rw [Adapter.findEventText, pyGet_obj]
      have hpc : pyContains (.obj kvs) "content" = .ok ((kvs.lookup "content").isSome) := rfl
      cases hb : Json.beq ((kvs.lookup "type").getD .null) (.str "agent_response") with
      | true =>
        rw [pyGet_obj]
        cases hc : ((kvs.lookup "content").getD (.str "")).truthy with
        | true =>
          exact ⟨((kvs.lookup "content").getD (.str "")).pyStr, by simp [hb, hc]⟩
        | false => exact ⟨s, by simp [hb, hc, hs]⟩
      | false =>
        rw [hpc]
        cases hm : (kvs.lookup "content").isSome with
        | true =>
          rw [pyGet_obj]
          cases hc : ((kvs.lookup "content").getD (.str "")).truthy with
          | true =>
            exact ⟨((kvs.lookup "content").getD (.str "")).pyStr, by simp [hb, hm, hc]⟩
          | false => exact ⟨s, by simp [hb, hm, hc, hs]⟩
        | false => exact ⟨s, by simp [hb, hm, hs]⟩
    | null => simp [Json.isObj] at h1
    | bool b => simp [Json.isObj] at h1
    | num n => simp [Json.isObj] at h1
    | str s => simp [Json.isObj] at h1
    | arr xs => simp [Json.isObj] at h1

/-- The final fallback of both extractors always leaves a non-empty
string when the placeholder is non-empty. -/
theorem ite_empty_ne (w p : String) (hp : p ≠ "") :
    (if w == "" then p else w) ≠ "" := by
  cases hw : w == "" with
  | true => simpa [hw] using hp
  | false =>
    simp only [hw, Bool.false_eq_true, if_false]
    intro hc
    rw [hc] at hw
    simp at hw

theorem okNonempty_ok (s : String) (h : s ≠ "") : okNonempty (.ok s) = true := by
  simp [okNonempty, h]

/-- The terminal step of the adapter extraction always succeeds with a
non-empty string. -/
theorem okNonempty_final (w : String) :
    okNonempty (.ok (if w == "" then
      "I received your message but was unable to generate a response. Please try again."
    else w)) = true :=
  okNonempty_ok _ (ite_empty_ne _ _ (by decide))

/-- The state fallback and placeholder step of the adapter extraction never
raises and always ends in a non-empty string. -/
theorem Adapter.stateStep_ok (kvs : List (String × Json)) (fe : String) :
    okNonempty (
      match (if fe == "" then
               match pyGet (.obj kvs) "state" (.obj []) with
               | .error e => .error e
               | .ok state =>
                 match state with
                 | .obj kvs2 =>
                   match kvs2.lookup "content" with
                   | some c => .ok c.pyStr
                   | none => .ok ""
                 | .str s => .ok s
                 | _ => .ok ""
             else .ok fe : Except PyExc String) with
      | .error e => .error e
      | .ok withState =>
        .ok (if withState == "" then
          "I received your message but was unable to generate a response. Please try again."
        else withState)) = true := by
  cases hfe : fe == "" with
  | false =>
    simp [okNonempty, hfe]
  | true =>
    simp only [hfe, if_true]
    rw [pyGet_obj]
    cases hs : kvs.lookup "state" with
    | none =>
      simp only [Option.getD]
      exact okNonempty_final ""
    | some st =>
      cases st with
      | obj kvs2 =>
        simp only [Option.getD]
        cases hc : kvs2.lookup "content" with
        | none => simp only [hc]; exact okNonempty_final ""
        | some c => simp only [hc]; exact okNonempty_final c.pyStr
      | str s => simp only [Option.getD]; exact okNonempty_final s
      | null => simp only [Option.getD]; exact okNonempty_final ""
      | bool b => simp only [Option.getD]; exact okNonempty_final ""
      | num n => simp only [Option.getD]; exact okNonempty_final ""
      | arr xs => simp only [Option.getD]; exact okNonempty_final ""

/-- A looked-up value is among the second components of the table. -/
theorem lookup_mem_snd {β : Type} (l : List (String × β)) (k : String) (v : β)
    (h : l.lookup k = some v) : v ∈ l.map Prod.snd := by
  induction l with
  | nil => simp [List.lookup] at h
  | cons p t ih =>
    obtain ⟨pk, pv⟩ := p
    rw [List.lookup] at h
    cases hk : k == pk with
    | true =>
      rw [hk] at h
      simp only [Option.some.injEq] at h
      subst h
      simp
    | false =>
      rw [hk] at h
      simp only [List.map_cons, List.mem_cons]
      exact Or.inr (ih h)

/-- Every backend id in the static table is non-empty. -/
theorem MODEL_MAPPING_snd_ne (v : String)
    (h : v ∈ OllamaProxy.MODEL_MAPPING.map Prod.snd) : v ≠ "" := by
  have hall : ∀ x ∈ OllamaProxy.MODEL_MAPPING.map Prod.snd, x ≠ "" := by decide
  exact hall v h

/-- A string starting with a non-empty literal is non-empty. -/
theorem append_ne_empty (pre rest : String) (h : pre.data ≠ []) : pre ++ rest ≠ "" := by
  intro hc
  have := congrArg String.data hc
  rw [String.data_append] at this
  cases hd : pre.data with
  | nil => exact h hd
  | cons a t => rw [hd] at this; simp at this

/-- For any provider string the default model is one of the four values of
the defaults table (or the hard-coded fallback). -/
theorem get_default_model_cases (p : String) :
    OllamaProxy.get_default_model p = "gemini-2.0-flash" ∨
    OllamaProxy.get_default_model p = "gemini-2.0-flash-001" ∨
    OllamaProxy.get_default_model p = "gpt-4o" ∨
    OllamaProxy.get_default_model p = "claude-3-5-sonnet" := by
  unfold OllamaProxy.get_default_model OllamaProxy.DEFAULT_MODELS
  simp only [List.lookup]
  repeat' split
  all_goals simp

/-- Every frame emitted for a content chunk by the chat relay has done
false. -/
theorem chatFrame_not_done (m now : String) (c : StreamChunk) (f : Frame)
    (h : OllamaProxy.chatFrameOfChunk m now c = some f) : f.isDone = false := by
  unfold OllamaProxy.chatFrameOfChunk at h
  repeat' split at h
  all_goals first
    | exact Option.noConfusion h
    | (rw [← Option.some.inj h]; rfl)

/-- Same for the generate relay. -/
theorem genFrame_not_done (m now : String) (c : StreamChunk) (f : Frame)
    (h : OllamaProxy.genFrameOfChunk m now c = some f) : f.isDone = false := by
  unfold OllamaProxy.genFrameOfChunk at h
  repeat' split at h
  all_goals first
    | exact Option.noConfusion h
    | (rw [← Option.some.inj h]; rfl)

/-- A frame list of the shape body plus terminal frame has exactly one done
frame, at the last position, when the body frames are all not done. -/
theorem one_done_last (body : List Frame) (last : Frame)
    (hb : ∀ f ∈ body, f.isDone = false) (hl : last.isDone = true) :
    (body ++ [last]).countP (fun f => f.isDone) = 1
    ∧ (body ++ [last]).getLast? = some last := by
  constructor
  · rw [List.countP_append]
    rw [List.countP_eq_zero.mpr (fun a ha => by simp [hb a ha])]
    simp [List.countP, List.countP.go, hl]
  · rw [List.getLast?_append]
    rfl

/-- Two runs of the adapter try body on the same request and backend agree
on the issued calls and, after erasing id and created, on the result. -/
theorem tryBody_uuid_time_invariant (request : ChatCompletionRequest)
    (backend : AdkBackend) (sessionId u1 u2 : String) (t1 t2 : Int) :
    (Adapter.tryBody request backend sessionId u1 t1).1 =
      (Adapter.tryBody request backend sessionId u2 t2).1
    ∧ (Adapter.tryBody request backend sessionId u1 t1).2.map eraseVolatile =
      (Adapter.tryBody request backend sessionId u2 t2).2.map eraseVolatile := by
  refine ⟨?_, ?_⟩
  all_goals
    unfold Adapter.tryBody
    cases he : request.messages.isEmpty
    case true => simp
    case false =>
      simp only [Bool.false_eq_true, if_false]
      cases hl : lastUserMessage request.messages with
      | none => simp
      | some um =>
        by_cases hbe : (um == "") = true
        · simp [hbe]
        · simp only [hbe, Bool.false_eq_true, if_false]
          by_cases hcs : ((backend.createSession sessionId).status != 200) = true
          · simp [hcs]
          · simp only [hcs, Bool.false_eq_true, if_false]
            cases hid : pyGet (backend.createSession sessionId).json "id" (.str sessionId) with
            | error e => simp [hid]
            | ok idv =>
              simp only [hid]
              by_cases hms : ((backend.sendMessage idv.pyStr um).status != 200) = true
              · simp [hms]
              · simp only [hms, Bool.false_eq_true, if_false]
                cases hex : Adapter.extractResponseText (backend.sendMessage idv.pyStr um).json with
                | error e => simp [hex]
                | ok response_text => simp [hex, eraseVolatile, Except.map]

/-! ## The verified claims -/

/-- C1 counterexample: the claim fails in the main.py variant, which
forwards the content of the last message regardless of role ("b" instead of
the most recent user content "a"), and in the adapter variant for a most
recent user message with empty content, which is rejected with no backend
call instead of being forwarded. -/
theorem C1_counterexample :
    lastUserMessage [{ role := "user", content := "a" }, { role := "assistant", content := "b" }] =
      some "a"
    ∧ (MainPy.chat_completions
        { model := "m",
          messages := [{ role := "user", content := "a" }, { role := "assistant", content := "b" }] }
        (fun _ => none)).1 = ["b"]
    ∧ ("b" : String) ≠ "a"
    ∧ Adapter.create_chat_completion
        { model := "m", messages := [{ role := "user", content := "" }] }
        okBackend "s" "u" 0 =
      ([], .error { status := 500, detail := "Internal server error: 400: No user message found" }) := by
  refine ⟨by decide, by decide, by decide, by decide⟩

/-- C1 (amended): in the adk_openai_adapter and adk_agent_api variants,
whenever the most recent user-role message has non-empty content c, every
message forwarded to the backend carries exactly c; the main.py variant
instead forwards the content of the last message regardless of role. -/
theorem C1_most_recent_user_forwarded (request : ChatCompletionRequest)
    (backend : AdkBackend) (sessionId uuidHex : String) (now : Int)
    (runner : String → List AdkEvent) (reqM : OpenAIRequest)
    (run_sync : String → Option MainEvent) (c : String)
    (hc : c ≠ "") (h : lastUserMessage request.messages = some c) :
    ((Adapter.create_chat_completion request backend sessionId uuidHex now).1.all
      (fun call => match call with
        | .sendMessage _ m => m == c
        | _ => true) = true)
    ∧ ((AgentApi.create_chat_completion request runner uuidHex now).1.all
      (fun call => match call with
        | .run m => m == c
        | _ => true) = true)
    ∧ (MainPy.chat_completions reqM run_sync).1 =
        (reqM.messages.getLast?.map (fun m => m.content)).toList := by
  have hne : request.messages.isEmpty = false := by
    cases hm : request.messages with
    | nil => rw [hm] at h; simp [lastUserMessage] at h
    | cons a t => rfl
  have hcb : (c == "") = false := by
    cases hb : c == "" with
    | true => exact absurd (eq_of_beq hb) hc
    | false => rfl
  refine ⟨?_, ?_, ?_⟩
  · unfold Adapter.create_chat_completion Adapter.tryBody
    simp only [hne, h, hcb, Bool.false_eq_true, if_false]
    split
    · simp
    · split
      · simp
      · split
        · simp
        · split
          · simp
          · simp
  · unfold AgentApi.create_chat_completion AgentApi.tryBody
    simp [hne, h, hcb]
  · unfold MainPy.chat_completions
    cases hm : reqM.messages.getLast? <;> simp [hm]

theorem C1_witness :
    (("hi" : String) ≠ "") ∧
    lastUserMessage [{ role := "user", content := "hi" }] = some "hi" ∧
    ((Adapter.create_chat_completion { model := "m", messages := [{ role := "user", content := "hi" }] }
        okBackend "s" "u" 0).1.all
      (fun call => match call with
        | .sendMessage _ m => m == "hi"
        | _ => true) = true) := by
  refine ⟨by decide, by decide, ?_⟩
  exact (C1_most_recent_user_forwarded
    { model := "m", messages := [{ role := "user", content := "hi" }] }
    okBackend "s" "u" 0 (fun _ => []) { model := "m", messages := [] } (fun _ => none)
    "hi" (by decide) (by decide)).1

/-- C2: for a request with zero user-role messages both handler variants
issue no backend call, but they answer HTTP 500 rather than 400, because
the blanket except-Exception clause re-wraps the HTTPException(400) the
handler itself raised. -/
theorem C2_no_user_message_rejected_as_500 (request : ChatCompletionRequest)
    (h : request.messages.all (fun m => m.role != "user") = true)
    (backend : AdkBackend) (sessionId uuidHex : String) (now : Int)
    (runner : String → List AdkEvent) :
    Adapter.create_chat_completion request backend sessionId uuidHex now =
      ([], .error ⟨500, "Internal server error: 400: " ++
          (if request.messages.isEmpty then "No messages provided" else "No user message found")⟩)
    ∧ AgentApi.create_chat_completion request runner uuidHex now =
      ([], .error ⟨500, "Internal server error: 400: " ++
          (if request.messages.isEmpty then "No messages provided" else "No user message found")⟩) := by
  have hn := lastUserMessage_eq_none request.messages h
  constructor
  · unfold Adapter.create_chat_completion Adapter.tryBody
    cases he : request.messages.isEmpty <;> simp [he, hn, PyExc.toStr] <;> decide
  · unfold AgentApi.create_chat_completion AgentApi.tryBody
    cases he : request.messages.isEmpty <;> simp [he, hn, PyExc.toStr] <;> decide

theorem C2_witness :
    (([] : List ChatMessage).all (fun m => m.role != "user") = true) ∧
    Adapter.create_chat_completion { model := "m", messages := [] } okBackend "s" "u" 0 =
      ([], .error { status := 500, detail := "Internal server error: 400: No messages provided" }) := by
  refine ⟨by decide, ?_⟩
  have := (C2_no_user_message_rejected_as_500 { model := "m", messages := [] } (by decide)
    okBackend "s" "u" 0 (fun _ => [])).1
  simpa using this

/-- C3 counterexample: on the backend response [] (a JSON list), the
adapter extraction raises AttributeError (surfaced as HTTP 500 by the
catch-all), rather than returning the placeholder. -/
theorem C3_counterexample :
    Adapter.extractResponseText (Json.arr []) =
      .error (.attributeError (noGetAttr "list")) := by
  rfl

/-- C3 (amended): on a dict-shaped backend response whose events value,
when truthy, is a list of dicts, the adapter extractor returns a non-empty
string without raising (the fixed placeholder when nothing matches), and
the agent-api extractor returns a non-empty string for every event list;
a non-dict raw response instead raises (see the counterexample). -/
theorem C3_extractor_degrades_gracefully (j : Json) (events : List AdkEvent)
    (h : Adapter.eventsWellFormed j = true) :
    okNonempty (Adapter.extractResponseText j) = true
    ∧ AgentApi.extractResponseText events ≠ "" := by
  constructor
  · cases j with
    | obj kvs =>
      rw [Adapter.extractResponseText, pyGet_obj]
      simp only [Adapter.eventsWellFormed] at h
      cases hl : kvs.lookup "events" with
      | none => exact Adapter.stateStep_ok kvs ""
      | some v =>
        simp only [hl] at h
        cases hv : v.truthy with
        | false =>
          simp only [Option.getD_some, hv, Bool.false_eq_true, if_false]
          exact Adapter.stateStep_ok kvs ""
        | true =>
          simp only [hv, Bool.not_true, Bool.false_or] at h
          cases v with
          | arr l =>
            obtain ⟨s, hs⟩ := findEventText_ok l h
            simp only [Option.getD_some, hv, if_true, pyIter, hs]
            exact Adapter.stateStep_ok kvs s
          | null => simp at h
          | bool b => simp at h
          | num n => simp at h
          | str st => simp at h
          | obj kvs2 => simp at h
    | null => simp [Adapter.eventsWellFormed] at h
    | bool b => simp [Adapter.eventsWellFormed] at h
    | num n => simp [Adapter.eventsWellFormed] at h
    | str s => simp [Adapter.eventsWellFormed] at h
    | arr xs => simp [Adapter.eventsWellFormed] at h
  · exact ite_empty_ne _ _ (by decide)

theorem C3_witness :
    Adapter.eventsWellFormed (.obj []) = true
    ∧ okNonempty (Adapter.extractResponseText (.obj [])) = true
    ∧ AgentApi.extractResponseText ([] : List AdkEvent) ≠ "" := by
  refine ⟨by decide, ?_, ?_⟩
  · exact (C3_extractor_degrades_gracefully (.obj []) [] (by decide)).1
  · exact (C3_extractor_degrades_gracefully (.obj []) [] (by decide)).2

/-- C4 counterexample: a 409 session-create response makes the adapter
raise (HTTP 500 after the catch-all re-wrap) and no message send is
issued, contradicting proceed-anyway. -/
theorem C4_counterexample :
    Adapter.create_chat_completion
      { model := "m", messages := [{ role := "user", content := "hi" }] }
      backend409 "s" "u" 0 =
    ([.createSession "s"],
     .error ⟨500, "Internal server error: 500: Failed to create ADK session"⟩) := by
  decide

/-- C4 (amended): a non-200 session-create response (409 included) makes
the adapter raise HTTP 500 with no message send; only a 200 response
proceeds, the message send using the id returned in the 200 body when
present and the originally requested session id otherwise. -/
theorem C4_session_create_non200_raises (request : ChatCompletionRequest)
    (backend : AdkBackend) (sessionId uuidHex : String) (now : Int)
    (kvs : List (String × Json)) (c : String)
    (hc : c ≠ "") (h : lastUserMessage request.messages = some c) :
    ((backend.createSession sessionId).status ≠ 200 →
      Adapter.create_chat_completion request backend sessionId uuidHex now =
        ([.createSession sessionId],
         .error ⟨500, "Internal server error: 500: Failed to create ADK session"⟩))
    ∧ ((backend.createSession sessionId).status = 200 →
       (backend.createSession sessionId).json = .obj kvs →
       (Adapter.create_chat_completion request backend sessionId uuidHex now).1 =
         [.createSession sessionId,
          .sendMessage (((kvs.lookup "id").getD (.str sessionId)).pyStr) c]) := by
  have hne : request.messages.isEmpty = false := by
    cases hm : request.messages with
    | nil => rw [hm] at h; simp [lastUserMessage] at h
    | cons a t => rfl
  have hcb : (c == "") = false := by
    cases hb : c == "" with
    | true => exact absurd (eq_of_beq hb) hc
    | false => rfl
  constructor
  · intro hst
    have hst2 : ((backend.createSession sessionId).status != 200) = true := by
      simpa using hst
    unfold Adapter.create_chat_completion Adapter.tryBody
    simp [hne, h, hcb, hst2, PyExc.toStr]
    decide
  · intro hst hjson
    have hst2 : ((backend.createSession sessionId).status != 200) = false := by
      simp [hst]
    unfold Adapter.create_chat_completion Adapter.tryBody
    simp only [hne, Bool.false_eq_true, if_false, h, hcb, hst2, hjson, pyGet_obj]
    split
    · rfl
    · split
      · rfl
      · rfl

theorem C4_witness :
    (("hi" : String) ≠ "") ∧
    lastUserMessage [{ role := "user", content := "hi" }] = some "hi" ∧
    Adapter.create_chat_completion
      { model := "m", messages := [{ role := "user", content := "hi" }] }
      backend409 "s" "u" 0 =
      ([.createSession "s"],
       .error ⟨500, "Internal server error: 500: Failed to create ADK session"⟩) ∧
    (Adapter.create_chat_completion
      { model := "m", messages := [{ role := "user", content := "hi" }] }
      backend200id "s" "u" 0).1 = [.createSession "s", .sendMessage "sid2" "hi"] := by
  refine ⟨by decide, by decide, ?_, ?_⟩
  · exact (C4_session_create_non200_raises
      { model := "m", messages := [{ role := "user", content := "hi" }] }
      backend409 "s" "u" 0 [] "hi" (by decide) (by decide)).1 (by decide)
  · exact (C4_session_create_non200_raises
      { model := "m", messages := [{ role := "user", content := "hi" }] }
      backend200id "s" "u" 0 [("id", .str "sid2")] "hi" (by decide) (by decide)).2 rfl rfl

/-- C5 counterexample: on the spec scenario the adapter yields the Python
str of the content dict, not "4"; with two content-bearing events the
adapter takes the first, not the last; and the agent-api extractor looks
only at the final event, so a trailing content-free event hides the
preceding agent turn. -/
theorem C5_counterexample :
    (Adapter.extractResponseText scenarioResp = .ok scenarioContent.pyStr
      ∧ scenarioContent.pyStr ≠ "4")
    ∧ (Adapter.extractResponseText
        (.obj [("events", .arr [.obj [("content", .str "a")], .obj [("content", .str "b")]])]) =
          .ok "a")
    ∧ AgentApi.extractResponseText
        [{ content := some { parts := [{ text := some "4" }] } }, { content := none }] =
      "I apologize, but I was unable to generate a response. Please try again." := by
  refine ⟨⟨by decide, by decide⟩, by decide, by decide⟩

/-- C5 (amended): the adapter event scan takes the first event with truthy
content and returns str of the whole content value (so the scenario yields
the stringified dict); the agent-api extractor inspects only the last
event, joining the texts of all its parts, and yields "4" on the scenario
event. -/
theorem C5_first_event_str_content (c1 c2 : Json) (h1 : c1.truthy = true)
    (es : List AdkEvent) (e : AdkEvent) :
    Adapter.findEventText [.obj [("content", c1)], .obj [("content", c2)]] = .ok c1.pyStr
    ∧ AgentApi.extractResponseText (es ++ [e]) = AgentApi.extractResponseText [e]
    ∧ AgentApi.extractResponseText [{ content := some { parts := [{ text := some "4" }] } }] = "4"
    ∧ Adapter.extractResponseText scenarioResp = .ok scenarioContent.pyStr := by
  refine ⟨?_, ?_, by decide, by decide⟩
  · simp [Adapter.findEventText, pyGet, pyContains, List.lookup, Json.beq, h1]
  · unfold AgentApi.extractResponseText
    simp [List.getLast?_append]

theorem C5_witness :
    (Json.str "a").truthy = true
    ∧ Adapter.findEventText [.obj [("content", .str "a")], .obj [("content", .str "b")]] =
        .ok "a"
    ∧ AgentApi.extractResponseText
        ([{ content := none }] ++ [{ content := some { parts := [{ text := some "x" }] } }]) =
      AgentApi.extractResponseText [{ content := some { parts := [{ text := some "x" }] } }] := by
  refine ⟨by decide, ?_, ?_⟩
  · exact (C5_first_event_str_content (.str "a") (.str "b") (by decide)
      [] { content := none }).1
  · exact (C5_first_event_str_content (.str "a") (.str "b") (by decide)
      [{ content := none }] { content := some { parts := [{ text := some "x" }] } }).2.1

/-- C6 counterexample: the flat backend response with top-level key
response yields the fixed placeholder, not the value "X": the adapter has
no top-level response fallback. -/
theorem C6_counterexample :
    Adapter.extractResponseText (.obj [("response", .str "X")]) =
      .ok "I received your message but was unable to generate a response. Please try again."
    ∧ ("I received your message but was unable to generate a response. Please try again." :
        String) ≠ "X" := by
  refine ⟨by decide, by decide⟩

/-- C6 (amended): after the events scan the adapter falls back only to
state.content (dict-shaped state) or to a string-shaped state itself; it
consults no top-level response, message or content key, so a flat
response object yields the placeholder. -/
theorem C6_state_only_fallback (v s : String) (hs : s ≠ "") :
    Adapter.extractResponseText (.obj [("response", .str v)]) =
      .ok "I received your message but was unable to generate a response. Please try again."
    ∧ Adapter.extractResponseText (.obj [("state", .str s)]) = .ok s
    ∧ Adapter.extractResponseText (.obj [("state", .obj [("content", .str s)])]) = .ok s := by
  refine ⟨?_, ?_, ?_⟩
  · simp [Adapter.extractResponseText, pyGet, List.lookup, Json.truthy]
  · simp [Adapter.extractResponseText, pyGet, List.lookup, Json.truthy, hs]
  · simp [Adapter.extractResponseText, pyGet, List.lookup, Json.truthy, Json.pyStr, hs]

theorem C6_witness :
    (("Y" : String) ≠ "") ∧
    Adapter.extractResponseText (.obj [("response", .str "X")]) =
      .ok "I received your message but was unable to generate a response. Please try again."
    ∧ Adapter.extractResponseText (.obj [("state", .str "Y")]) = .ok "Y" := by
  refine ⟨by decide, ?_, ?_⟩
  · exact (C6_state_only_fallback "X" "Y" (by decide)).1
  · exact (C6_state_only_fallback "X" "Y" (by decide)).2.1

/-- C7: map_model_name is total and never returns an empty identifier for
any provider and any model name; but for the anthropic provider an
unrecognized name maps to a doubled-prefix identifier rather than the
default backend id of the table. -/
theorem C7_map_model_name_total (LITELLM_PROVIDER ollama_model : String) :
    (∃ s, OllamaProxy.map_model_name LITELLM_PROVIDER ollama_model = .ok s ∧ s ≠ "")
    ∧ OllamaProxy.map_model_name "anthropic" "mistral-7b" =
        .ok "anthropic/anthropic/claude-3-5-sonnet-20241022"
    ∧ ("anthropic/anthropic/claude-3-5-sonnet-20241022" : String) ≠
        "anthropic/claude-3-5-sonnet-20241022" := by
  refine ⟨?_, by decide, by decide⟩
  unfold OllamaProxy.map_model_name
  cases hl : OllamaProxy.MODEL_MAPPING.lookup ollama_model with
  | some v => exact ⟨v, rfl, MODEL_MAPPING_snd_ne v (lookup_mem_snd _ _ _ hl)⟩
  | none =>
    have hd := get_default_model_cases LITELLM_PROVIDER
    by_cases h1 : (pyLower LITELLM_PROVIDER == "google_ai_studio"
        || pyLower LITELLM_PROVIDER == "gemini") = true
    · simp only [h1, if_true]
      refine ⟨_, rfl, ?_⟩
      split
      · exact append_ne_empty "gemini/" _ (by decide)
      · exact append_ne_empty "gemini/" _ (by decide)
    · simp only [h1, Bool.false_eq_true, if_false]
      by_cases h2 : (pyLower LITELLM_PROVIDER == "vertex_ai"
          || pyLower LITELLM_PROVIDER == "google_vertex_ai") = true
      · simp only [h2, if_true]
        refine ⟨_, rfl, ?_⟩
        split
        · exact append_ne_empty "vertex_ai/" _ (by decide)
        · split
          · decide
          · exact append_ne_empty "vertex_ai/" _ (by decide)
      · simp only [h2, Bool.false_eq_true, if_false]
        by_cases h3 : (pyLower LITELLM_PROVIDER == "openai") = true
        · simp only [h3, if_true]
          refine ⟨_, rfl, ?_⟩
          split
          · exact append_ne_empty "openai/" _ (by decide)
          · exact append_ne_empty "openai/" _ (by decide)
        · simp only [h3, Bool.false_eq_true, if_false]
          by_cases h4 : (pyLower LITELLM_PROVIDER == "anthropic") = true
          · simp only [h4, if_true]
            split
            · rcases hd with hd | hd | hd | hd <;>
                rw [hd] <;>
                exact ⟨_, rfl, append_ne_empty "anthropic/" _ (by decide)⟩
            · exact ⟨_, rfl, append_ne_empty "anthropic/" _ (by decide)⟩
          · simp only [h4, Bool.false_eq_true, if_false]
            rcases hd with hd | hd | hd | hd <;> rw [hd] <;> exact ⟨_, rfl, by decide⟩

/-- C8: both streaming relays emit exactly one done frame per stream,
always last: the empty-content final frame on normal completion, and a
single terminal error frame carrying the error text when the stream
raises, after which nothing more is emitted. -/
theorem C8_streams_single_done_last (kwargsModel now : String)
    (chunks consumed : List StreamChunk) (msg : String) :
    ((OllamaProxy.stream_chat_response kwargsModel now (.ok chunks)).countP
        (fun f => f.isDone) = 1
      ∧ (OllamaProxy.stream_chat_response kwargsModel now (.ok chunks)).getLast? =
          some (.chat (modelShortName kwargsModel) now { role := "assistant", content := "" } true))
    ∧ ((OllamaProxy.stream_chat_response kwargsModel now (.err consumed msg)).countP
        (fun f => f.isDone) = 1
      ∧ (OllamaProxy.stream_chat_response kwargsModel now (.err consumed msg)).getLast? =
          some (.err msg true))
    ∧ ((OllamaProxy.stream_generate_response kwargsModel now (.ok chunks)).countP
        (fun f => f.isDone) = 1
      ∧ (OllamaProxy.stream_generate_response kwargsModel now (.ok chunks)).getLast? =
          some (.gen (modelShortName kwargsModel) now "" true))
    ∧ ((OllamaProxy.stream_generate_response kwargsModel now (.err consumed msg)).countP
        (fun f => f.isDone) = 1
      ∧ (OllamaProxy.stream_generate_response kwargsModel now (.err consumed msg)).getLast? =
          some (.err msg true)) := by
  refine ⟨?_, ?_, ?_, ?_⟩
  · exact one_done_last _ _
      (fun f hf => by
        obtain ⟨c, _, hc⟩ := List.mem_filterMap.mp hf
        exact chatFrame_not_done kwargsModel now c f hc) rfl
  · exact one_done_last _ _
      (fun f hf => by
        obtain ⟨c, _, hc⟩ := List.mem_filterMap.mp hf
        exact chatFrame_not_done kwargsModel now c f hc) rfl
  · exact one_done_last _ _
      (fun f hf => by
        obtain ⟨c, _, hc⟩ := List.mem_filterMap.mp hf
        exact genFrame_not_done kwargsModel now c f hc) rfl
  · exact one_done_last _ _
      (fun f hf => by
        obtain ⟨c, _, hc⟩ := List.mem_filterMap.mp hf
        exact genFrame_not_done kwargsModel now c f hc) rfl

/-- C9: the translation is stateless in the embedding (a pure function of
the request and the backend results); two runs on identical request and
backend agree on the backend calls issued and produce structurally
identical responses once the synthesized id and timestamp fields are
erased, in the adapter and in the ollama_proxy chat handler. -/
theorem C9_stateless_modulo_id_time (request : ChatCompletionRequest)
    (backend : AdkBackend) (sessionId u1 u2 : String) (t1 t2 : Int)
    (provider : String) (creq : ChatRequest) (acompletion : LiteLLMArgs → LLMResponse)
    (n1 n2 : String) :
    (Adapter.create_chat_completion request backend sessionId u1 t1).1 =
      (Adapter.create_chat_completion request backend sessionId u2 t2).1
    ∧ (Adapter.create_chat_completion request backend sessionId u1 t1).2.map eraseVolatile =
      (Adapter.create_chat_completion request backend sessionId u2 t2).2.map eraseVolatile
    ∧ (OllamaProxy.chat_completion provider creq acompletion n1).map eraseCreatedAt =
      (OllamaProxy.chat_completion provider creq acompletion n2).map eraseCreatedAt := by
  obtain ⟨h1, h2⟩ := tryBody_uuid_time_invariant request backend sessionId u1 u2 t1 t2
  refine ⟨?_, ?_, ?_⟩
  · show (Adapter.tryBody request backend sessionId u1 t1).1 =
      (Adapter.tryBody request backend sessionId u2 t2).1
    exact h1
  · show (match (Adapter.tryBody request backend sessionId u1 t1).2 with
      | .ok v => (.ok v : Except HTTPError ChatCompletionResponse)
      | .error e => .error { status := 500, detail := "Internal server error: " ++ e.toStr }).map
        eraseVolatile =
      (match (Adapter.tryBody request backend sessionId u2 t2).2 with
      | .ok v => (.ok v : Except HTTPError ChatCompletionResponse)
      | .error e => .error { status := 500, detail := "Internal server error: " ++ e.toStr }).map
        eraseVolatile
    cases hr1 : (Adapter.tryBody request backend sessionId u1 t1).2 <;>
      cases hr2 : (Adapter.tryBody request backend sessionId u2 t2).2 <;>
      rw [hr1, hr2] at h2 <;>
      simp [Except.map] at h2 ⊢
    · rw [h2]
    · exact h2
  · unfold OllamaProxy.chat_completion
    cases hm : OllamaProxy.map_model_name provider creq.model with
    | error e => simp [hm, Except.map]
    | ok litellm_model =>
      cases hs : creq.stream with
      | true => simp [hm, hs, Except.map, eraseCreatedAt]
      | false =>
        cases hh : (acompletion
            { model := litellm_model, messages := creq.messages,
              stream := false }).choices.head? with
        | none => simp [hm, hs, hh, Except.map]
        | some c => simp [hm, hs, hh, Except.map, eraseCreatedAt]

/-- C10: in main.py, the forwarded prompt is the content of the last message
of the list regardless of its role; the empty list is a precondition, since
messages[-1] then raises IndexError at the public interface instead of an
InvalidRequest rejection. -/
theorem C10_main_forwards_last_any_role (request : OpenAIRequest)
    (run_sync : String → Option MainEvent) (h : request.messages ≠ []) :
    (MainPy.chat_completions request run_sync).1 =
      (request.messages.getLast?.map (fun m => m.content)).toList
    ∧ (∃ r, (MainPy.chat_completions request run_sync).2 = .ok r)
    ∧ (∀ req : OpenAIRequest, req.messages = [] →
        MainPy.chat_completions req run_sync =
          ([], .error (.indexError "list index out of range"))) := by
  refine ⟨?_, ?_, ?_⟩
  · unfold MainPy.chat_completions
    cases hm : request.messages.getLast? <;> simp [hm]
  · unfold MainPy.chat_completions
    cases hm : request.messages.getLast? with
    | none => exact absurd (List.getLast?_eq_none_iff.mp hm) h
    | some m => simp [hm]
  · intro req hreq
    unfold MainPy.chat_completions
    simp [hreq]

theorem C10_witness :
    (([{ role := "user", content := "a" }, { role := "assistant", content := "b" }] :
        List ChatMessage) ≠ []) ∧
    (MainPy.chat_completions
        { model := "m",
          messages := [{ role := "user", content := "a" }, { role := "assistant", content := "b" }] }
        (fun _ => none)).1 = ["b"] := by
  constructor
  · decide
  · rw [(C10_main_forwards_last_any_role
      { model := "m",
        messages := [{ role := "user", content := "a" }, { role := "assistant", content := "b" }] }
      (fun _ => none) (by decide)).1]
    rfl
